import Mathlib

/-!
Verification of the `urlpather` single-segment matcher.

The definitions below are a shallow embedding of the repository's Rust
sources (`src/segments.rs`, `src/errors.rs`, `src/config.rs`):
machine floats are modelled by the exact value of the parsed literal
(`F64Lit`), fallible code returns `Except`, and Rust `match`/`if`
structure is kept as written.
-/

set_option linter.dupNamespace false

deriving instance DecidableEq for Except

namespace UrlPather

/-- Shorthand so that constructor fields named after Rust types
do not clash with the Lean builtin. -/
abbrev Str := String

/-- `SegType` from `src/segments.rs`: the closed segment-type domain. -/
inductive SegType where
  | Number
  | String
  | Date
deriving DecidableEq, Repr

/-- Value of a parsed `f64` literal, before IEEE rounding: either a NaN,
a signed infinity, or the exact rational value of the decimal literal.
This models Rust's `f64` result of `str::parse::<f64>()` at the level of
the parsed literal. -/
inductive F64Lit where
  | nan
  | inf (neg : Bool)
  | finite (val : ℚ)
deriving DecidableEq, Repr

/-- Numeric value of a run of ASCII digit characters. -/
def digitsVal (ds : List Char) : Nat :=
  ds.foldl (fun a c => 10 * a + (c.toNat - 48)) 0

/-- Exact rational value of the finite literal with sign `neg`, integer
digits `intDs`, fractional digits `fracDs` and decimal exponent `e`:
`±(intDs.fracDs) * 10 ^ e`. -/
def litVal (neg : Bool) (intDs fracDs : List Char) (e : Int) : ℚ :=
  let n : Int := Int.ofNat (digitsVal (intDs ++ fracDs))
  let sn : Int := if neg then -n else n
  if 0 ≤ e then mkRat (sn * (10 ^ e.toNat : Nat)) (10 ^ fracDs.length)
  else mkRat sn (10 ^ fracDs.length * 10 ^ (-e).toNat)

/-- `Exp ::= 'e' Sign? Digit+` tail of the Rust `f64` grammar (the input
is already lowercased and starts right after the `'e'`); the whole
remainder must be consumed. -/
def parseExp (cs : List Char) : Option Int :=
  let p : Bool × List Char :=
    match cs with
    | '+' :: t => (false, t)
    | '-' :: t => (true, t)
    | t => (false, t)
  let ds := p.2.takeWhile Char.isDigit
  let rest := p.2.dropWhile Char.isDigit
  if ds ≠ [] ∧ rest = [] then
    some (if p.1 then -(digitsVal ds : Int) else (digitsVal ds : Int))
  else none

/-- `Number ::= ( Digit+ | Digit+ '.' Digit* | Digit* '.' Digit+ ) Exp?`
of the Rust `f64` grammar, applied after the optional sign; the whole
input must be consumed. -/
def parseNumBody (neg : Bool) (cs : List Char) : Option F64Lit :=
  let d1 := cs.takeWhile Char.isDigit
  let r1 := cs.dropWhile Char.isDigit
  match r1 with
  | [] => if d1 = [] then none else some (.finite (litVal neg d1 [] 0))
  | 'e' :: r4 =>
    if d1 = [] then none
    else
      match parseExp r4 with
      | some e => some (.finite (litVal neg d1 [] e))
      | none => none
  | '.' :: r2 =>
    let d2 := r2.takeWhile Char.isDigit
    let r3 := r2.dropWhile Char.isDigit
    if d1 = [] ∧ d2 = [] then none
    else
      match r3 with
      | [] => some (.finite (litVal neg d1 d2 0))
      | 'e' :: r4 =>
        match parseExp r4 with
        | some e => some (.finite (litVal neg d1 d2 e))
        | none => none
      | _ => none
  | _ => none

/-- Rust's `str::parse::<f64>()` grammar, from the standard library
documentation of `impl FromStr for f64`:
`Float ::= Sign? ( 'inf' | 'infinity' | 'nan' | Number )`, matched
case-insensitively against the entire input (no prefix match, no
trailing garbage). Returns the exact parsed literal value. -/
def parseF64 (s : Str) : Option F64Lit :=
  let cs := s.data.map Char.toLower
  let p : Bool × List Char :=
    match cs with
    | '+' :: t => (false, t)
    | '-' :: t => (true, t)
    | t => (false, t)
  if p.2 = ['i', 'n', 'f'] ∨ p.2 = ['i', 'n', 'f', 'i', 'n', 'i', 't', 'y'] then
    some (.inf p.1)
  else if p.2 = ['n', 'a', 'n'] then some .nan
  else parseNumBody p.1 p.2

/-- `jiff::civil::Date`: a calendar date. -/
structure CivilDate where
  year : Nat
  month : Nat
  day : Nat
deriving DecidableEq, Repr

/-- Gregorian leap-year rule. -/
def isLeapYear (y : Nat) : Bool :=
  (y % 4 == 0 && y % 100 != 0) || y % 400 == 0

/-- Number of days in month `m` of year `y`. -/
def daysInMonth (y m : Nat) : Nat :=
  if m = 2 then (if isLeapYear y then 29 else 28)
  else if m = 4 ∨ m = 6 ∨ m = 9 ∨ m = 11 then 30
  else 31

/-- Modelled from the spec: the shared date parser
(`jiff::fmt::temporal::DateTimeParser`, static `DATE_PARSER` in
`src/segments.rs`, used via `parse_date`) is a third-party dependency
whose implementation is not in this repository. Per the spec, it
accepts extended ISO-style calendar dates (`YYYY-MM-DD`), consuming the
whole input, and any additional trailing component causes failure. -/
def parse_date (s : Str) : Option CivilDate :=
  match s.data with
  | [y1, y2, y3, y4, '-', m1, m2, '-', d1, d2] =>
    if y1.isDigit ∧ y2.isDigit ∧ y3.isDigit ∧ y4.isDigit ∧
        m1.isDigit ∧ m2.isDigit ∧ d1.isDigit ∧ d2.isDigit then
      let y := digitsVal [y1, y2, y3, y4]
      let m := digitsVal [m1, m2]
      let d := digitsVal [d1, d2]
      if 1 ≤ m ∧ m ≤ 12 ∧ 1 ≤ d ∧ d ≤ daysInMonth y m then
        some ⟨y, m, d⟩
      else none
    else none
  | _ => none

/-- `ParserConfigError` from `src/errors.rs`. -/
inductive ParserConfigError where
  | InvalidSegmentType
deriving DecidableEq, Repr

/-- `MatchError` from `src/errors.rs`: an unnamed `MatchError(expected,
got)` or a `NamedMatchError(name, expected, got)`. -/
inductive MatchError where
  | MatchError (expected got : Str)
  | NamedMatchError (name expected got : Str)
deriving DecidableEq, Repr

/-- `MatchError::with_name` from `src/errors.rs`: promotes an unnamed
error to a named one; leaves a named error unchanged. -/
def MatchError.with_name : UrlPather.MatchError → Str → UrlPather.MatchError
  | .MatchError s1 s2, name => .NamedMatchError name s1 s2
  | e@(.NamedMatchError _ _ _), _ => e

/-- `MatchValue` from `src/segments.rs`. -/
inductive MatchValue where
  | String (s : Str)
  | Number (v : F64Lit)
  | Date (d : CivilDate)
  | Terminus
deriving DecidableEq, Repr

/-- `MatchValue::from_str`. -/
def MatchValue.from_str (input : Str) : MatchValue := .String input

/-- `MatchValue::from_number`. -/
def MatchValue.from_number (input : F64Lit) : MatchValue := .Number input

/-- `MatchValue::from_date`. -/
def MatchValue.from_date (input : CivilDate) : MatchValue := .Date input

/-- `SegType::match_string` from `src/segments.rs`. -/
def SegType.match_string (input : Str) : Except MatchError MatchValue :=
  .ok (MatchValue.from_str input)

/-- `SegType::match_number` from `src/segments.rs`:
`input.parse::<f64>()`, mapping a parse failure to
`MatchError("number", input)`. -/
def SegType.match_number (input : Str) : Except MatchError MatchValue :=
  match parseF64 input with
  | some num => .ok (MatchValue.from_number num)
  | none => .error (.MatchError "number" input)

/-- `SegType::match_date` from `src/segments.rs`:
`DATE_PARSER.parse_date(input)`, mapping a parse failure to
`MatchError("date", input)`. -/
def SegType.match_date (input : Str) : Except MatchError MatchValue :=
  match parse_date input with
  | some parsed => .ok (MatchValue.from_date parsed)
  | none => .error (.MatchError "date" input)

/-- `SegType::match_segment` from `src/segments.rs`: dispatch on the
segment type. -/
def SegType.match_segment : SegType → Str → Except MatchError MatchValue
  | .String, input => SegType.match_string input
  | .Number, input => SegType.match_number input
  | .Date, input => SegType.match_date input

/-- `Var` from `src/segments.rs`: a named typed placeholder. -/
structure Var where
  name : Str
  seg_type : SegType
deriving DecidableEq, Repr

/-- `Var::new` from `src/segments.rs`. -/
def Var.new (name : Str) (seg_type : SegType) : Var :=
  ⟨name, seg_type⟩

/-- `Segment` from `src/segments.rs`. -/
inductive Segment where
  | Static (s : Str)
  | Var (v : UrlPather.Var)
  | Terminus
deriving DecidableEq, Repr

/-- `MatchResult` from `src/segments.rs`. -/
structure MatchResult where
  value : MatchValue
  name : Option Str
deriving DecidableEq, Repr

/-- `MatchResult::new_named`. -/
def MatchResult.new_named (value : MatchValue) (name : Str) : MatchResult :=
  ⟨value, some name⟩

/-- `MatchResult::new_unnamed`. -/
def MatchResult.new_unnamed (value : MatchValue) : MatchResult :=
  ⟨value, none⟩

/-- `MatchResult::terminus`. -/
def MatchResult.terminus : MatchResult :=
  ⟨MatchValue.Terminus, none⟩

/-- `Segment::match_segment` from `src/segments.rs`. -/
def Segment.match_segment : Segment → Str → Except MatchError MatchResult
  | .Static s, input =>
    if input = s then .ok (MatchResult.new_unnamed (MatchValue.from_str input))
    else .error (.MatchError s input)
  | .Terminus, input =>
    if input = "" then .ok MatchResult.terminus
    else .error (.MatchError "<Terminus>" input)
  | .Var v, input =>
    match v.seg_type.match_segment input with
    | .error e => .error (e.with_name v.name)
    | .ok parsed => .ok (MatchResult.new_named parsed v.name)

/-- `TryFrom<&str> for SegType` from `src/config.rs`. -/
def SegType.try_from (value : Str) : Except ParserConfigError SegType :=
  match value with
  | "" => .ok SegType.String
  | "number" => .ok SegType.Number
  | "string" => .ok SegType.String
  | "date" => .ok SegType.Date
  | _ => .error ParserConfigError.InvalidSegmentType

/-! ## Helper lemmas -/

/-- The Coercion Engine only ever produces unnamed errors: every failure
of `SegType::match_segment` is a `MatchError(expected, got)`. -/
lemma segtype_error_unnamed (t : SegType) (s : Str) (e : UrlPather.MatchError)
    (h : t.match_segment s = .error e) : ∃ x g, e = .MatchError x g := by
  cases t
  · unfold SegType.match_segment SegType.match_number at h
    cases hp : parseF64 s <;> simp [hp] at h
    exact ⟨"number", s, h.symm⟩
  · simp [SegType.match_segment, SegType.match_string] at h
  · unfold SegType.match_segment SegType.match_date at h
    cases hp : parse_date s <;> simp [hp] at h
    exact ⟨"date", s, h.symm⟩

/-! ## Claims -/

/-- C1: `Segment::match_segment` on a `Var{name, seg_type}` succeeds iff
coercion of the input per `seg_type` succeeds; on success it returns the
coerced value named `Some(name)`; on failure it returns the underlying
(always unnamed) coercion failure annotated with the variable's name,
i.e. a named error carrying the original expected/got descriptions. -/
theorem var_match_segment_spec (n : Str) (t : SegType) (s : Str) :
    (∀ v, t.match_segment s = .ok v →
      (Segment.Var ⟨n, t⟩).match_segment s = .ok ⟨v, some n⟩)
    ∧ (∀ e, t.match_segment s = .error e → ∃ x g,
        e = .MatchError x g ∧
        (Segment.Var ⟨n, t⟩).match_segment s = .error (.NamedMatchError n x g))
    ∧ (((Segment.Var ⟨n, t⟩).match_segment s).isOk ↔ (t.match_segment s).isOk) := by
  refine ⟨fun v hv => ?_, fun e he => ?_, ?_⟩
  · simp [Segment.match_segment, hv, MatchResult.new_named]
  · obtain ⟨x, g, rfl⟩ := segtype_error_unnamed t s e he
    exact ⟨x, g, rfl, by simp [Segment.match_segment, he, MatchError.with_name]⟩
  · cases h : t.match_segment s <;>
      simp [Segment.match_segment, h, Except.isOk, Except.toBool]

/-- C1 witness: instantiated at `Var{name:"num", Number}` with inputs
`"123.45"` (success, named, exact value 123.45) and `"world"` (failure
promoted to `NamedMatchError("num", "number", "world")`). -/
theorem var_match_segment_spec_witness :
    (Segment.Var ⟨"num", .Number⟩).match_segment "123.45"
        = .ok ⟨.Number (.finite (mkRat 12345 100)), some "num"⟩
    ∧ (Segment.Var ⟨"num", .Number⟩).match_segment "world"
        = .error (.NamedMatchError "num" "number" "world") := by
  constructor
  · exact (var_match_segment_spec "num" .Number "123.45").1 _ (by decide)
  · obtain ⟨x, g, hx, h⟩ := (var_match_segment_spec "num" .Number "world").2.1
      (.MatchError "number" "world") (by decide)
    cases hx
    exact h

/-- C2: coercion with `SegType::Number` succeeds iff the entire input is
a valid literal of Rust's `f64` grammar (`parseF64`, full-input match:
no prefix match, no trailing garbage); on success it yields
`MatchValue::Number` with the exact parsed value, on failure the error
carries `"number"` as expected and the raw input as got. -/
theorem number_coercion_spec (s : Str) :
    (∀ q, parseF64 s = some q →
      SegType.match_segment .Number s = .ok (.Number q))
    ∧ (parseF64 s = none →
      SegType.match_segment .Number s = .error (.MatchError "number" s))
    ∧ ((SegType.match_segment .Number s).isOk ↔ (parseF64 s).isSome) := by
  refine ⟨fun q hq => ?_, fun hn => ?_, ?_⟩
  · simp [SegType.match_segment, SegType.match_number, hq, MatchValue.from_number]
  · simp [SegType.match_segment, SegType.match_number, hn]
  · cases hp : parseF64 s <;>
      simp [SegType.match_segment, SegType.match_number, hp, Except.isOk, Except.toBool]

/-- C2 witness: `"123.45"` parses to exactly 123.45 = 12345/100, and
`"123.45.67"` (trailing garbage) fails with expected `"number"`. -/
theorem number_coercion_spec_witness :
    SegType.match_segment .Number "123.45" = .ok (.Number (.finite (mkRat 12345 100)))
    ∧ SegType.match_segment .Number "123.45.67"
        = .error (.MatchError "number" "123.45.67") :=
  ⟨(number_coercion_spec "123.45").1 _ (by decide),
   (number_coercion_spec "123.45.67").2.1 (by decide)⟩

/-- The date grammar consumes the whole input at a fixed shape: a string
whose character count is not 10 never parses as a date. -/
lemma parse_date_none_of_length (s : Str) (h : s.data.length ≠ 10) :
    parse_date s = none := by
  unfold parse_date
  split
  · rename_i y1 y2 y3 y4 m1 m2 d1 d2 heq
    simp [heq] at h
  · rfl

/-- A successfully parsed date string has exactly 10 characters. -/
lemma parse_date_some_length (s : Str) (d : CivilDate)
    (h : parse_date s = some d) : s.data.length = 10 := by
  by_contra hne
  rw [parse_date_none_of_length s hne] at h
  simp at h

/-- C3: coercion with `SegType::Date` succeeds iff the entire input
parses as an extended ISO calendar date (`parse_date`); appending any
non-empty trailing component to a valid date string makes coercion fail
rather than partially succeed, and on failure the error carries
`"date"` as expected and the raw input as got. -/
theorem date_coercion_spec (s : Str) :
    (∀ d, parse_date s = some d →
      SegType.match_segment .Date s = .ok (.Date d))
    ∧ (parse_date s = none →
      SegType.match_segment .Date s = .error (.MatchError "date" s))
    ∧ ((SegType.match_segment .Date s).isOk ↔ (parse_date s).isSome)
    ∧ (∀ d t, parse_date s = some d → t ≠ "" →
      SegType.match_segment .Date (s ++ t)
        = .error (.MatchError "date" (s ++ t))) := by
  refine ⟨fun d hd => ?_, fun hn => ?_, ?_, fun d t hd ht => ?_⟩
  · simp [SegType.match_segment, SegType.match_date, hd, MatchValue.from_date]
  · simp [SegType.match_segment, SegType.match_date, hn]
  · cases hp : parse_date s <;>
      simp [SegType.match_segment, SegType.match_date, hp, Except.isOk, Except.toBool]
  · have h10 : s.data.length = 10 := parse_date_some_length s d hd
    have htl : t.data.length ≠ 0 := by
      intro h0
      apply ht
      cases t with
      | mk l => cases l with
        | nil => rfl
        | cons a as => simp at h0
    have hdata : (s ++ t).data = s.data ++ t.data := by
      cases s; cases t; rfl
    have hlen : (s ++ t).data.length ≠ 10 := by
      rw [hdata, List.length_append, h10]
      omega
    simp [SegType.match_segment, SegType.match_date,
      parse_date_none_of_length (s ++ t) hlen]

/-- C3 witness: `"2021-01-01"` parses to the date 2021-01-01, and the
trailing-suffix input `"2021-01-01" ++ "-01"` (i.e. `"2021-01-01-01"`)
fails with expected `"date"`. -/
theorem date_coercion_spec_witness :
    SegType.match_segment .Date "2021-01-01" = .ok (.Date ⟨2021, 1, 1⟩)
    ∧ SegType.match_segment .Date ("2021-01-01" ++ "-01")
        = .error (.MatchError "date" ("2021-01-01" ++ "-01")) :=
  ⟨(date_coercion_spec "2021-01-01").1 _ (by decide),
   (date_coercion_spec "2021-01-01").2.2.2 ⟨2021, 1, 1⟩ "-01" (by decide) (by decide)⟩

/-- C4: `MatchError::with_name` promotes an unnamed error to a named one
preserving expected/got, leaves an already-named error unchanged for any
supplied name, and is therefore idempotent (first write wins); it never
produces an unnamed error from a named one. -/
theorem with_name_spec :
    (∀ n e g, (MatchError.MatchError e g).with_name n = .NamedMatchError n e g)
    ∧ (∀ n m e g,
        (MatchError.NamedMatchError m e g).with_name n = .NamedMatchError m e g)
    ∧ (∀ (err : UrlPather.MatchError) (n m : Str),
        (err.with_name n).with_name m = err.with_name n)
    ∧ (∀ (err : UrlPather.MatchError) (n e g : Str),
        err.with_name n ≠ .MatchError e g) := by
  refine ⟨fun _ _ _ => rfl, fun _ _ _ _ => rfl, fun err n m => ?_, fun err n e g => ?_⟩
  · cases err <;> rfl
  · cases err <;> simp [MatchError.with_name]

/-- C5: matching `Static(l)` against `s` succeeds iff `s = l` exactly;
on success the result is unnamed with value `String(s)`; on failure the
error carries `l` as expected and `s` as got. -/
theorem static_match_spec (l s : Str) :
    (s = l → (Segment.Static l).match_segment s = .ok ⟨.String s, none⟩)
    ∧ (s ≠ l → (Segment.Static l).match_segment s = .error (.MatchError l s)) := by
  constructor <;> intro h <;>
    simp [Segment.match_segment, h, MatchResult.new_unnamed, MatchValue.from_str]

/-- C5 witness: `Static("hello")` matched against `"hello"` and
`"world"`. -/
theorem static_match_spec_witness :
    (Segment.Static "hello").match_segment "hello" = .ok ⟨.String "hello", none⟩
    ∧ (Segment.Static "hello").match_segment "world"
        = .error (.MatchError "hello" "world") :=
  ⟨(static_match_spec "hello" "hello").1 rfl,
   (static_match_spec "hello" "world").2 (by decide)⟩

/-- C6: matching `Terminus` against `s` succeeds iff `s` is empty; on
success the result is unnamed with value `Terminus`; on failure the
error carries the sentinel `"<Terminus>"` as expected and `s` as got. -/
theorem terminus_match_spec (s : Str) :
    (s = "" → Segment.Terminus.match_segment s = .ok ⟨.Terminus, none⟩)
    ∧ (s ≠ "" →
      Segment.Terminus.match_segment s = .error (.MatchError "<Terminus>" s)) := by
  constructor <;> intro h <;>
    simp [Segment.match_segment, h, MatchResult.terminus]

/-- C6 witness: `Terminus` matched against `""` and `"world"`. -/
theorem terminus_match_spec_witness :
    Segment.Terminus.match_segment "" = .ok ⟨.Terminus, none⟩
    ∧ Segment.Terminus.match_segment "world"
        = .error (.MatchError "<Terminus>" "world") :=
  ⟨(terminus_match_spec "").1 rfl, (terminus_match_spec "world").2 (by decide)⟩

/-- C7: coercion with `SegType::String` is total and the identity on the
input: it always succeeds with `MatchValue::String(s)`, the input
verbatim. -/
theorem string_coercion_identity (s : Str) :
    SegType.match_segment .String s = .ok (.String s) := rfl

/-- C8: the configuration-token mapping of `TryFrom<&str> for SegType`:
`""` and `"string"` map to `String`, `"number"` to `Number`, `"date"` to
`Date`, and every other token fails with `InvalidSegmentType`. -/
theorem seg_type_try_from_spec :
    SegType.try_from "" = .ok SegType.String
    ∧ SegType.try_from "string" = .ok SegType.String
    ∧ SegType.try_from "number" = .ok SegType.Number
    ∧ SegType.try_from "date" = .ok SegType.Date
    ∧ (∀ s : Str, s ≠ "" → s ≠ "string" → s ≠ "number" → s ≠ "date" →
        SegType.try_from s = .error ParserConfigError.InvalidSegmentType) := by
  refine ⟨rfl, rfl, rfl, rfl, fun s h1 h2 h3 h4 => ?_⟩
  unfold SegType.try_from
  split <;> simp_all

/-- C8 witness: the unrecognized token `"float"` is rejected. -/
theorem seg_type_try_from_spec_witness :
    SegType.try_from "float" = .error ParserConfigError.InvalidSegmentType :=
  seg_type_try_from_spec.2.2.2.2 "float" (by decide) (by decide) (by decide) (by decide)

/-- C9 counterexample: `Var::new` accepts the empty string as a name —
the produced `Var`'s name is empty, so the constructor does not uphold
the non-emptiness invariant. -/
theorem var_new_empty_name : (Var.new "" SegType.String).name = "" := rfl

/-- C9 (amended): `Var::new` performs no validation and stores the
supplied name and segment type verbatim; the produced `Var` has a
non-empty name exactly when the supplied name was non-empty, so the
non-emptiness invariant is a caller obligation, not enforced by the
constructor. -/
theorem var_new_spec (n : Str) (t : SegType) :
    (Var.new n t).name = n ∧ (Var.new n t).seg_type = t
    ∧ (n ≠ "" → (Var.new n t).name ≠ "") :=
  ⟨rfl, rfl, fun h => h⟩

/-- C9 witness: `Var::new("num", Number)` has the non-empty name
`"num"` and segment type `Number`. -/
theorem var_new_spec_witness :
    (Var.new "num" SegType.Number).name = "num"
    ∧ (Var.new "num" SegType.Number).seg_type = SegType.Number
    ∧ (Var.new "num" SegType.Number).name ≠ "" :=
  ⟨(var_new_spec "num" SegType.Number).1, (var_new_spec "num" SegType.Number).2.1,
   (var_new_spec "num" SegType.Number).2.2 (by decide)⟩

/-- C10: `Terminus` is not the only segment matching the empty input:
`Static("")` also matches `""`, unnamed, with value `String("")` — which
is a different `MatchValue` than `Terminus`, so callers must inspect the
result value, not just match success, to distinguish end-of-path. -/
theorem static_empty_matches_empty :
    (Segment.Static "").match_segment "" = .ok ⟨.String "", none⟩
    ∧ Segment.Terminus.match_segment "" = .ok ⟨.Terminus, none⟩
    ∧ MatchValue.String "" ≠ MatchValue.Terminus
    ∧ (Segment.Static "").match_segment "" ≠ Segment.Terminus.match_segment "" :=
  ⟨rfl, rfl, by decide, by decide⟩

end UrlPather
